import Mathlib

/-!
Verification development for the libreTranslate Lambda adapter
(`handler.py` and `scripts/ensure_models_on_efs.py`).

Strings are shallowly embedded as lists of Unicode code points
(`Str := List Nat`); byte strings as lists of naturals below 256.
-/

abbrev Str := List Nat

/-- Code points of a Lean string literal, used to transcribe the Python
string constants of the source. -/
def strCodes (s : String) : Str := s.data.map Char.toNat

/-- Model of Python `str.upper` restricted to ASCII (HTTP method names). -/
def upperStr (s : Str) : Str := s.map (fun c => if 97 ≤ c ∧ c ≤ 122 then c - 32 else c)

/-- Model of Python `str.lower` restricted to ASCII (header names). -/
def lowerStr (s : Str) : Str := s.map (fun c => if 65 ≤ c ∧ c ≤ 90 then c + 32 else c)

/-- Python truthiness for an optional string: `a or d` where `None` and the
empty string are falsy. -/
def pyOrStr (a : Option Str) (d : Str) : Str :=
  match a with
  | some s => if s = [] then d else s
  | none => d

/-! ## UTF-8 codec

Model of CPython strict `bytes.decode("utf-8")` / `str.encode("utf-8")`
(used by `forward_to_local` lines 270-275 and `get_body_bytes` line 253).
The decoder accepts exactly the well-formed sequences: no overlong forms,
no surrogates (0xED 0xA0..), nothing above U+10FFFF (0xF4 0x90..). -/

/-- Lower bound for the first continuation byte after leader `b0`. -/
def contLo (b0 : Nat) : Nat := if b0 = 224 then 160 else if b0 = 240 then 144 else 128

/-- Upper bound for the first continuation byte after leader `b0`. -/
def contHi (b0 : Nat) : Nat := if b0 = 237 then 159 else if b0 = 244 then 143 else 191

/-- Decode one UTF-8 sequence whose leading byte is `b0` and whose remaining
input is `bs`; returns the code point and the unconsumed bytes, or `none` on
a malformed sequence. -/
def utf8Step (b0 : Nat) (bs : List Nat) : Option (Nat × List Nat) :=
  if b0 ≤ 127 then some (b0, bs)
  else if 194 ≤ b0 ∧ b0 ≤ 223 then
    match bs with
    | b1 :: bs1 =>
      if 128 ≤ b1 ∧ b1 ≤ 191 then some ((b0 - 192) * 64 + (b1 - 128), bs1)
      else none
    | [] => none
  else if 224 ≤ b0 ∧ b0 ≤ 239 then
    match bs with
    | b1 :: b2 :: bs2 =>
      if (contLo b0 ≤ b1 ∧ b1 ≤ contHi b0) ∧ (128 ≤ b2 ∧ b2 ≤ 191) then
        some ((b0 - 224) * 4096 + (b1 - 128) * 64 + (b2 - 128), bs2)
      else none
    | _ => none
  else if 240 ≤ b0 ∧ b0 ≤ 244 then
    match bs with
    | b1 :: b2 :: b3 :: bs3 =>
      if (contLo b0 ≤ b1 ∧ b1 ≤ contHi b0) ∧ (128 ≤ b2 ∧ b2 ≤ 191) ∧ (128 ≤ b3 ∧ b3 ≤ 191) then
        some ((b0 - 240) * 262144 + (b1 - 128) * 4096 + (b2 - 128) * 64 + (b3 - 128), bs3)
      else none
    | _ => none
  else none

/-- Fuel-driven decoding loop; each step consumes at least the leading byte,
so fuel equal to the input length is always sufficient. -/
def utf8DecodeAux : Nat → List Nat → Option (List Nat)
  | _, [] => some []
  | 0, _ :: _ => none
  | fuel + 1, b0 :: bs =>
    match utf8Step b0 bs with
    | none => none
    | some (c, rest) => (utf8DecodeAux fuel rest).map (fun t => c :: t)

/-- Strict UTF-8 decoding of a byte list to a code-point list; `none` models
a `UnicodeDecodeError`. -/
def utf8Decode (bs : List Nat) : Option (List Nat) := utf8DecodeAux bs.length bs

/-- UTF-8 encoding of a single code point. -/
def utf8EncodeChar (c : Nat) : List Nat :=
  if c ≤ 127 then [c]
  else if c ≤ 2047 then [192 + c / 64, 128 + c % 64]
  else if c ≤ 65535 then [224 + c / 4096, 128 + (c / 64) % 64, 128 + c % 64]
  else [240 + c / 262144, 128 + (c / 4096) % 64, 128 + (c / 64) % 64, 128 + c % 64]

/-- UTF-8 encoding of a code-point list (Python `str.encode("utf-8")`). -/
def utf8Encode : List Nat → List Nat
  | [] => []
  | c :: cs => utf8EncodeChar c ++ utf8Encode cs

/-- The standard base64 alphabet as code points. -/
def B64_CHARS : List Nat :=
  strCodes "ABCDEFGHIJKLMNOPQRSTUVWXYZabcdefghijklmnopqrstuvwxyz0123456789+/"

/-- Alphabet character of a sextet. -/
def b64Char (s : Nat) : Nat := B64_CHARS.getD s 0

/-- Sextet of an alphabet character (position in the alphabet). -/
def b64Sextet (c : Nat) : Nat := B64_CHARS.indexOf c

/-- `base64.b64encode` over a byte list, producing the ASCII code points of
the padded base64 text. -/
def b64encode : List Nat → List Nat
  | [] => []
  | [a] => [b64Char (a / 4), b64Char (a % 4 * 16), 61, 61]
  | [a, b] => [b64Char (a / 4), b64Char (a % 4 * 16 + b / 16), b64Char (b % 16 * 4), 61]
  | a :: b :: c :: rest =>
    b64Char (a / 4) :: b64Char (a % 4 * 16 + b / 16) :: b64Char (b % 16 * 4 + c / 64) ::
      b64Char (c % 64) :: b64encode rest

/-- `base64.b64decode` over the code points of a padded base64 text. -/
def b64decode : List Nat → List Nat
  | c1 :: c2 :: c3 :: c4 :: rest =>
    if c4 = 61 then
      if c3 = 61 then [b64Sextet c1 * 4 + b64Sextet c2 / 16]
      else [b64Sextet c1 * 4 + b64Sextet c2 / 16, b64Sextet c2 % 16 * 16 + b64Sextet c3 / 4]
    else
      (b64Sextet c1 * 4 + b64Sextet c2 / 16) ::
        (b64Sextet c2 % 16 * 16 + b64Sextet c3 / 4) ::
        (b64Sextet c3 % 4 * 64 + b64Sextet c4) :: b64decode rest
  | _ => []

/-- Uppercase hexadecimal digit. -/
def hexUpper (n : Nat) : Nat := if n < 10 then 48 + n else 55 + n

/-- Bytes `quote_plus` leaves unescaped: ASCII letters, digits, `_.-~`. -/
def safeByte (b : Nat) : Bool :=
  (48 ≤ b && b ≤ 57) || (65 ≤ b && b ≤ 90) || (97 ≤ b && b ≤ 122) ||
    b == 45 || b == 46 || b == 95 || b == 126

/-- `quote_plus` on a single UTF-8 byte: kept, `+` for space, else `%XX`. -/
def quoteByte (b : Nat) : List Nat :=
  if safeByte b then [b]
  else if b = 32 then [43]
  else [37, hexUpper (b / 16), hexUpper (b % 16)]

/-- `urllib.parse.quote_plus`: UTF-8 encode, then escape byte by byte. -/
def quotePlus (s : Str) : Str :=
  (utf8Encode s).foldr (fun b acc => quoteByte b ++ acc) []

/-- Join the `k=v` fragments with `&` (code point 38). -/
def joinAmp : List Str → Str
  | [] => []
  | [x] => x
  | x :: xs => x ++ 38 :: joinAmp xs

/-- `urllib.parse.urlencode` over an association list of parameters. -/
def urlencode (ps : List (Str × Str)) : Str :=
  joinAmp (ps.map (fun kv => quotePlus kv.1 ++ 61 :: quotePlus kv.2))

/-! ## Invocation events and request translation

Model of the proxy path of `handler.py` (lines 230-285). An event is a
record of the fields the handler reads, each optional because the two
schema shapes populate different subsets. -/

/-- A Python request body: either text or raw bytes. -/
inductive PyBody where
  | str (s : Str)
  | bytes (b : List Nat)
deriving DecidableEq

/-- The value carried by a `PyBody`. -/
def pyBodyRaw : PyBody → List Nat
  | .str s => s
  | .bytes b => b

/-- The fields of an invocation event used by the proxy path. `none` models
an absent key. -/
structure Event where
  rawPath : Option Str := none
  path : Option Str := none
  rawQueryString : Option Str := none
  queryStringParameters : Option (List (Str × Str)) := none
  httpMethod : Option Str := none
  requestContextHttpMethod : Option Str := none
  headers : Option (List (Str × Str)) := none
  body : Option PyBody := none
  isBase64Encoded : Option Bool := none

/-- `LT_LOCAL_BIND` default. -/
def SERVER_HOST : Str := strCodes "127.0.0.1"

/-- `LT_LOCAL_PORT` default, as the decimal text interpolated into the URL. -/
def SERVER_PORT_STR : Str := strCodes "5000"

/-- `build_target_url` (`handler.py` lines 230-239). -/
def build_target_url (ev : Event) : Str :=
  let path := pyOrStr ev.rawPath (pyOrStr ev.path (strCodes "/"))
  let qs0 := match ev.rawQueryString with
    | some s => s
    | none => []
  let qs := if qs0 = [] then
      match ev.queryStringParameters with
      | some ps => if ps = [] then [] else urlencode ps
      | none => []
    else qs0
  let url := strCodes "http://" ++ SERVER_HOST ++ 58 :: SERVER_PORT_STR ++ path
  if qs = [] then url
  else url ++ (if qs.head? = some 63 then qs else 63 :: qs)

/-- `get_method` (`handler.py` lines 241-242). -/
def get_method (ev : Event) : Str :=
  pyOrStr ev.requestContextHttpMethod (pyOrStr ev.httpMethod (strCodes "GET"))

/-- `get_headers` (`handler.py` lines 244-245): `event.get("headers") or {}`. -/
def get_headers (ev : Event) : List (Str × Str) :=
  match ev.headers with
  | some h => h
  | none => []

/-- `get_body_bytes` (`handler.py` lines 247-253). -/
def get_body_bytes (ev : Event) : List Nat :=
  match ev.body with
  | none => []
  | some pb =>
    if pyBodyRaw pb = [] then []
    else if ev.isBase64Encoded.getD false then b64decode (pyBodyRaw pb)
    else match pb with
      | .str s => utf8Encode s
      | .bytes b => b

/-- The outbound HTTP request assembled by `forward_to_local`
(`handler.py` lines 256-264): URL, upper-cased method, headers with `Host`
dropped, and `get_body_bytes(event) or None` as the payload. -/
structure OutboundRequest where
  url : Str
  method : Str
  reqHeaders : List (Str × Str)
  data : Option (List Nat)
deriving DecidableEq

/-- Assembly of the outbound request from the event. -/
def outboundRequest (ev : Event) : OutboundRequest :=
  { url := build_target_url ev,
    method := upperStr (get_method ev),
    reqHeaders := (get_headers ev).filter (fun kv => !(lowerStr kv.1 == strCodes "host")),
    data := if get_body_bytes ev = [] then none else some (get_body_bytes ev) }

/-- Outcome of the `urllib.request.urlopen` call: a 2xx/3xx exchange, an
`HTTPError` (completed exchange with an error status), or any other
exception (transport-level failure). -/
inductive HttpOutcome where
  | ok (status : Nat) (headers : List (Str × Str)) (body : List Nat)
  | httpError (code : Nat) (headers : List (Str × Str)) (body : List Nat)
  | transportError (msg : Str)

/-- The dictionary `forward_to_local` returns. `headers` and
`isBase64Encoded` are optional because the transport-error branch omits
those keys. -/
structure AdapterResponse where
  statusCode : Nat
  headers : Option (List (Str × Str))
  body : Str
  isBase64Encoded : Option Bool
deriving DecidableEq

/-- Body text of the synthetic transport-error response. -/
def upstreamErrPrefix : Str := strCodes "Upstream proxy error: "

/-- `forward_to_local` (`handler.py` lines 255-285): build the outbound
request, perform the exchange (abstracted as `transport`), and translate the
outcome into the response dictionary. -/
def forward_to_local (ev : Event) (transport : OutboundRequest → HttpOutcome) :
    AdapterResponse :=
  match transport (outboundRequest ev) with
  | .ok status hdrs respBody =>
    match utf8Decode respBody with
    | some text => { statusCode := status, headers := some hdrs, body := text,
                     isBase64Encoded := some false }
    | none => { statusCode := status, headers := some hdrs, body := b64encode respBody,
                isBase64Encoded := some true }
  | .httpError code hdrs errBody =>
    match utf8Decode errBody with
    | some text => { statusCode := code, headers := some hdrs, body := text,
                     isBase64Encoded := some false }
    | none => { statusCode := code, headers := some hdrs, body := b64encode errBody,
                isBase64Encoded := some true }
  | .transportError msg =>
    { statusCode := 502, headers := none, body := upstreamErrPrefix ++ msg,
      isBase64Encoded := none }

/-! ## Backend resolution

Model of `COMMON_PATHS` and `try_find_app` (`handler.py` lines 27-50).
The import system is abstracted as a function from module name to either a
raised exception or a module exposing attributes. -/

/-- The prioritized candidate locations, in source order. -/
def COMMON_PATHS : List Str :=
  ["main:app", "app:app", "server:app", "libretranslate:app", "translate:app",
    "api:app", "app.main:app", "src.app:app"].map strCodes

/-- Split at the first colon (Python `path.split(":", 1)`), or `none` when
the string contains no colon. -/
def splitColonAux : Str → Option (Str × Str)
  | [] => none
  | c :: cs =>
    if c = 58 then some ([], cs)
    else (splitColonAux cs).map (fun r => (c :: r.1, r.2))

/-- Module and attribute of a candidate path: split at `":"` when present,
else the whole path with attribute `"app"`. -/
def modAttr (p : Str) : Str × Str :=
  match splitColonAux p with
  | some r => r
  | none => (p, strCodes "app")

/-- Result of `importlib.import_module`: a raised exception or a module,
the latter abstracted as its attribute table. -/
inductive ImportResult where
  | raises
  | found (attrs : Str → Option Nat)

/-- The loop body of `try_find_app` over a list of candidate paths: import
errors are swallowed and the next candidate tried; a module lacking the
attribute also falls through to the next candidate. -/
def tryFindAppAux (imp : Str → ImportResult) : List Str → Option Nat
  | [] => none
  | p :: rest =>
    match imp (modAttr p).1 with
    | .raises => tryFindAppAux imp rest
    | .found attrs =>
      match attrs (modAttr p).2 with
      | some v => some v
      | none => tryFindAppAux imp rest

/-- `try_find_app` (`handler.py` lines 38-50). -/
def try_find_app (imp : Str → ImportResult) : Option Nat :=
  tryFindAppAux imp COMMON_PATHS

/-- Spec-side probe of one candidate: the value of the named attribute when
the module imports and exposes it, else `none`. -/
def probeCandidate (imp : Str → ImportResult) (p : Str) : Option Nat :=
  match imp (modAttr p).1 with
  | .raises => none
  | .found attrs => attrs (modAttr p).2

/-- Spec-side resolution: the first candidate, in `COMMON_PATHS` order,
whose probe succeeds; `none` when every candidate fails. -/
def findFirstSpec (imp : Str → ImportResult) : Option Nat :=
  COMMON_PATHS.findSome? (probeCandidate imp)

/-- Environment of `download_and_extract_model_from_s3`: configuration and
the outcome of each external interaction. -/
structure DlEnv where
  bucket : Str
  key : Str
  destExists : Bool
  destNonEmpty : Bool
  boto3Avail : Bool
  downloadOk : Bool
  isTar : Bool
  extractOk : Bool
deriving DecidableEq

/-- Result of a provisioning attempt: the returned boolean and the number
of network calls performed. -/
structure ProvisionResult where
  success : Bool
  netCalls : Nat
deriving DecidableEq

/-- `download_and_extract_model_from_s3`: bucket/key guard, then the
already-populated check, then boto3 availability, then download (a network
call) and extraction of a tar archive. -/
def download_and_extract_model_from_s3 (e : DlEnv) : ProvisionResult :=
  if e.bucket = [] ∨ e.key = [] then { success := false, netCalls := 0 }
  else if e.destExists && e.destNonEmpty then { success := true, netCalls := 0 }
  else if !e.boto3Avail then { success := false, netCalls := 0 }
  else if !e.downloadOk then { success := false, netCalls := 1 }
  else if e.isTar then
    if e.extractOk then { success := true, netCalls := 1 }
    else { success := false, netCalls := 1 }
  else { success := true, netCalls := 1 }

/-- Environment of `ensure_models`: the `LT_S3_BUCKET`/`LT_S3_MODEL_KEY`
variables, the mount state, and whether the streaming extract raises. -/
structure EMEnv where
  bucket : Str
  key : Str
  mountExists : Bool
  mountNonEmpty : Bool
  streamOk : Bool
deriving DecidableEq

/-- `ensure_models`: env-var guard, create-if-absent (a created mount is
empty), the non-empty check, then the streaming download-and-extract (a
network call). -/
def ensure_models (e : EMEnv) : ProvisionResult :=
  if e.bucket = [] ∨ e.key = [] then { success := false, netCalls := 0 }
  else if e.mountExists && e.mountNonEmpty then { success := true, netCalls := 0 }
  else if e.streamOk then { success := true, netCalls := 1 }
  else { success := false, netCalls := 1 }

/-! ## Filesystem paths and archive extraction

Model of `stream_extract_s3_to_dir`'s path-traversal guard
(`scripts/ensure_models_on_efs.py` lines 23-33) and of the guard-less
`tf.extractall(dest_dir)` in `download_and_extract_model_from_s3`
(`handler.py` lines 128-129). A path is parsed into components; `..`
components are resolved by `os.path.abspath`. -/

/-- One component of a POSIX path: a name or `..`. -/
inductive PathComp where
  | name (s : Str)
  | up
deriving DecidableEq

/-- A parsed POSIX path: an absolute flag and the component list. -/
structure PyPath where
  absolute : Bool
  comps : List PathComp
deriving DecidableEq

/-- Split a code-point string at `/` (code point 47). -/
def splitSlash : Str → List Str
  | [] => [[]]
  | c :: cs =>
    if c = 47 then [] :: splitSlash cs
    else match splitSlash cs with
      | seg :: rest => (c :: seg) :: rest
      | [] => [[c]]

/-- Parse a POSIX path string: empty and `.` components vanish under
normalization, `..` becomes `PathComp.up`. -/
def parsePath (s : Str) : PyPath :=
  { absolute := s.head? = some 47,
    comps := (splitSlash s).filterMap (fun seg =>
      if seg = [] ∨ seg = [46] then none
      else if seg = [46, 46] then some PathComp.up
      else some (PathComp.name seg)) }

/-- `os.path.join base p`: an absolute second argument discards the base. -/
def joinPath (base : PyPath) (p : PyPath) : PyPath :=
  if p.absolute then p else { absolute := base.absolute, comps := base.comps ++ p.comps }

/-- Normalization of a component list starting from the filesystem root:
`..` pops the last component (and stays at the root when there is none), as
`os.path.normpath` does for absolute paths. -/
def normFromRoot (cs : List PathComp) : List Str :=
  cs.foldl (fun acc c =>
    match c with
    | .up => acc.dropLast
    | .name s => acc ++ [s]) []

/-- `os.path.abspath` relative to the working directory `cwd`, yielding the
normalized component list from the root. -/
def absPath (cwd : List Str) (p : PyPath) : List Str :=
  if p.absolute then normFromRoot p.comps
  else normFromRoot (cwd.map PathComp.name ++ p.comps)

/-- Longest common leading run of two component lists:
`os.path.commonpath` on two absolute normalized paths. -/
def commonStem : List Str → List Str → List Str
  | a :: as, b :: bs => if a = b then a :: commonStem as bs else []
  | _, _ => []

/-- Whether `t` is a leading run of `w`: `t` is an ancestor of (or equal
to) `w`. -/
def leadsWith : List Str → List Str → Bool
  | [], _ => true
  | a :: as, b :: bs => a == b && leadsWith as bs
  | _ :: _, [] => false

/-- `stream_extract_s3_to_dir` (`scripts/ensure_models_on_efs.py` lines
23-33): for each member, extract to `join(target_dir, member.name)` only
when `commonpath([abspath(target_dir)]) ==
commonpath([abspath(target_dir), abspath(member_path)])`; otherwise skip
with a warning. Returns the list of written canonical paths. -/
def stream_extract_s3_to_dir (cwd : List Str) (target : PyPath) (members : List Str) :
    List (List Str) :=
  members.filterMap (fun nm =>
    let memberAbs := absPath cwd (joinPath target (parsePath nm))
    if absPath cwd target = commonStem (absPath cwd target) memberAbs then some memberAbs
    else none)

/-- The `tf.extractall(dest_dir)` call of `download_and_extract_model_from_s3`
(`handler.py` line 129): every member is written to
`join(dest_dir, member.name)`, with no guard. Returns the list of written
canonical paths. -/
def extractall_to_dir (cwd : List Str) (target : PyPath) (members : List Str) :
    List (List Str) :=
  members.map (fun nm => absPath cwd (joinPath target (parsePath nm)))

/-- Process-wide supervision state: the `server_started` event, the
`server_start_exc` cell, and whether the launcher thread is alive. -/
structure SrvState where
  started : Bool
  excSet : Bool
  threadAlive : Bool
deriving DecidableEq

/-- What a launch attempt does: the port opens in time, the port never
opens within the deadline, or `start_main_in_thread` raises. -/
inductive LaunchOutcome where
  | ready
  | portTimeout
  | raises
deriving DecidableEq

/-- Result of one `ensure_server_running` call: normal return, the
`RuntimeError("Starting main() failed")`, or the
`RuntimeError("Server did not become ready ...")`. -/
inductive EnsureResult where
  | ok
  | errStartFailed
  | errNotReady
deriving DecidableEq

/-- One `ensure_server_running` invocation (launch section only): returns
the new state, the call result, and whether this call started a launcher
thread. Per the source: an already-set `server_started` returns at once; a
dead or absent launcher thread is replaced and started; the caller then
waits and re-raises a recorded exception or reports unreadiness. -/
def ensure_server_running (st : SrvState) (out : LaunchOutcome) :
    SrvState × EnsureResult × Bool :=
  if st.started then (st, .ok, false)
  else
    let launched :=
      if st.threadAlive then (st, false)
      else
        match out with
        | .ready => ({ started := true, excSet := st.excSet, threadAlive := false }, true)
        | .portTimeout => ({ started := false, excSet := st.excSet, threadAlive := false }, true)
        | .raises => ({ started := true, excSet := true, threadAlive := false }, true)
    if launched.1.excSet then (launched.1, .errStartFailed, launched.2)
    else if launched.1.started then (launched.1, .ok, launched.2)
    else (launched.1, .errNotReady, launched.2)

/-- The cold-start state: nothing started, no exception, no thread. -/
def srvInit : SrvState := { started := false, excSet := false, threadAlive := false }

/-! ## Concurrent launch interleaving

Model of the unsynchronized check-then-spawn in `ensure_server_running`
(`handler.py` lines 217-222) under two concurrent callers. Each caller
executes three atomic steps: read `server_started`, read
`server_thread is None or not server_thread.is_alive()`, then
conditionally assign and start a new thread. -/

/-- Shared state of the race model: whether a launcher thread exists (and
is alive), whether `server_started` is set, and how many launcher threads
were started. -/
structure RaceState where
  threadLive : Bool
  started : Bool
  launches : Nat
deriving DecidableEq

/-- Program counter of one caller, with the locally captured liveness
check result. -/
inductive CallerPC where
  | atStart
  | atCheck
  | atAct (cond : Bool)
  | finished
deriving DecidableEq

/-- One atomic step of one caller. -/
def raceStep (g : RaceState) (c : CallerPC) : RaceState × CallerPC :=
  match c with
  | .atStart => if g.started then (g, .finished) else (g, .atCheck)
  | .atCheck => (g, .atAct (!g.threadLive))
  | .atAct cond =>
    if cond then
      ({ threadLive := true, started := g.started, launches := g.launches + 1 }, .finished)
    else (g, .finished)
  | .finished => (g, .finished)

/-- Run a schedule over two callers starting from the cold-start state;
`false` steps caller 0, `true` steps caller 1. -/
def raceRun (sched : List Bool) : RaceState × CallerPC × CallerPC :=
  sched.foldl (fun s who =>
    if who then
      let r := raceStep s.1 s.2.2
      (r.1, s.2.1, r.2)
    else
      let r := raceStep s.1 s.2.1
      (r.1, r.2, s.2.2))
    ({ threadLive := false, started := false, launches := 0 }, .atStart, .atStart)

/-! ## Spec-side constructions

Encodings of the claims' premises: feeding a response back into the
request-side decoder, and presenting one logical request in each of the two
event schema shapes. -/

/-- An event whose body is the text and base64 flag of a response, as the
round-trip property pairs the response-translation rule with the
request-translation rule. -/
def respToEvent (r : AdapterResponse) : Event :=
  { body := some (.str r.body), isBase64Encoded := r.isBase64Encoded }

/-- One logical request (path `p`, method `m`, query parameters `ps`,
headers, body, flag) presented in schema shape A: `rawPath`,
`rawQueryString`, `requestContext.http.method`. -/
def shapeAEvent (p m : Str) (ps : List (Str × Str)) (hdrs : List (Str × Str))
    (bd : Option PyBody) (fl : Option Bool) : Event :=
  { rawPath := some p, rawQueryString := some (urlencode ps),
    requestContextHttpMethod := some m, headers := some hdrs, body := bd,
    isBase64Encoded := fl }

/-- The same logical request presented in schema shape B: `path`,
`httpMethod`, `queryStringParameters`. -/
def shapeBEvent (p m : Str) (ps : List (Str × Str)) (hdrs : List (Str × Str))
    (bd : Option PyBody) (fl : Option Bool) : Event :=
  { path := some p, httpMethod := some m, queryStringParameters := some ps,
    headers := some hdrs, body := bd, isBase64Encoded := fl }

/-- A populated target with the bucket unset, for `ensure_models`. -/
def emPopulatedNoBucket : EMEnv :=
  { bucket := [], key := strCodes "k", mountExists := true, mountNonEmpty := true,
    streamOk := true }

/-- A populated target with the bucket unset, for
`download_and_extract_model_from_s3`. -/
def dlPopulatedNoBucket : DlEnv :=
  { bucket := [], key := strCodes "k", destExists := true, destNonEmpty := true,
    boto3Avail := true, downloadOk := true, isTar := true, extractOk := true }

/-- A populated target with bucket and key configured and every network
interaction set to fail, for `download_and_extract_model_from_s3`. -/
def dlPopulatedConfigured : DlEnv :=
  { bucket := strCodes "b", key := strCodes "k", destExists := true,
    destNonEmpty := true, boto3Avail := false, downloadOk := false, isTar := false,
    extractOk := false }

/-- A populated mount with bucket and key configured and a failing stream
extract, for `ensure_models`. -/
def emPopulatedConfigured : EMEnv :=
  { bucket := strCodes "b", key := strCodes "k", mountExists := true,
    mountNonEmpty := true, streamOk := false }

/-! ## Lemma library

Supporting lemmas about the embedded operations, used by the claim
theorems below. -/
theorem utf8EncodeChar_one (b0 : Nat) (h : b0 ≤ 127) : utf8EncodeChar b0 = [b0] := by
  unfold utf8EncodeChar
  rw [if_pos h]

theorem utf8EncodeChar_two (b0 b1 : Nat) (h0 : 194 ≤ b0) (h0h : b0 ≤ 223)
    (h1 : 128 ≤ b1) (h1h : b1 ≤ 191) :
    utf8EncodeChar ((b0 - 192) * 64 + (b1 - 128)) = [b0, b1] := by
  unfold utf8EncodeChar
  rw [if_neg (by omega), if_pos (by omega)]
  have e1 : ((b0 - 192) * 64 + (b1 - 128)) / 64 = b0 - 192 := by omega
  have e2 : ((b0 - 192) * 64 + (b1 - 128)) % 64 = b1 - 128 := by omega
  rw [e1, e2]
  simp only [List.cons.injEq, and_true]
  exact ⟨by omega, by omega⟩

theorem utf8EncodeChar_three (b0 b1 b2 : Nat) (h0 : 224 ≤ b0) (h0h : b0 ≤ 239)
    (h1 : contLo b0 ≤ b1) (h1h : b1 ≤ contHi b0) (h2 : 128 ≤ b2) (h2h : b2 ≤ 191) :
    utf8EncodeChar ((b0 - 224) * 4096 + (b1 - 128) * 64 + (b2 - 128)) = [b0, b1, b2] := by
  have hb1lo : 128 ≤ b1 := by
    have : 128 ≤ contLo b0 := by unfold contLo; split_ifs <;> omega
    omega
  have hb1hi : b1 ≤ 191 := by
    have : contHi b0 ≤ 191 := by unfold contHi; split_ifs <;> omega
    omega
  have hc : 2048 ≤ (b0 - 224) * 4096 + (b1 - 128) * 64 + (b2 - 128) := by
    by_cases hb : b0 = 224
    · have : contLo b0 = 160 := by rw [hb]; rfl
      omega
    · omega
  unfold utf8EncodeChar
  rw [if_neg (by omega), if_neg (by omega), if_pos (by omega)]
  have e1 : ((b0 - 224) * 4096 + (b1 - 128) * 64 + (b2 - 128)) / 4096 = b0 - 224 := by omega
  have e2 : (((b0 - 224) * 4096 + (b1 - 128) * 64 + (b2 - 128)) / 64) % 64 = b1 - 128 := by omega
  have e3 : ((b0 - 224) * 4096 + (b1 - 128) * 64 + (b2 - 128)) % 64 = b2 - 128 := by omega
  rw [e1, e2, e3]
  simp only [List.cons.injEq, and_true]
  exact ⟨by omega, by omega, by omega⟩

theorem utf8EncodeChar_four (b0 b1 b2 b3 : Nat) (h0 : 240 ≤ b0) (h0h : b0 ≤ 244)
    (h1 : contLo b0 ≤ b1) (h1h : b1 ≤ contHi b0) (h2 : 128 ≤ b2) (h2h : b2 ≤ 191)
    (h3 : 128 ≤ b3) (h3h : b3 ≤ 191) :
    utf8EncodeChar ((b0 - 240) * 262144 + (b1 - 128) * 4096 + (b2 - 128) * 64 + (b3 - 128)) =
      [b0, b1, b2, b3] := by
  have hb1lo : 128 ≤ b1 := by
    have : 128 ≤ contLo b0 := by unfold contLo; split_ifs <;> omega
    omega
  have hb1hi : b1 ≤ 191 := by
    have : contHi b0 ≤ 191 := by unfold contHi; split_ifs <;> omega
    omega
  have hc : 65536 ≤ (b0 - 240) * 262144 + (b1 - 128) * 4096 + (b2 - 128) * 64 + (b3 - 128) := by
    by_cases hb : b0 = 240
    · have : contLo b0 = 144 := by rw [hb]; rfl
      omega
    · omega
  unfold utf8EncodeChar
  rw [if_neg (by omega), if_neg (by omega), if_neg (by omega)]
  have e1 : ((b0 - 240) * 262144 + (b1 - 128) * 4096 + (b2 - 128) * 64 + (b3 - 128)) / 262144
      = b0 - 240 := by omega
  have e2 : (((b0 - 240) * 262144 + (b1 - 128) * 4096 + (b2 - 128) * 64 + (b3 - 128)) / 4096) % 64
      = b1 - 128 := by omega
  have e3 : (((b0 - 240) * 262144 + (b1 - 128) * 4096 + (b2 - 128) * 64 + (b3 - 128)) / 64) % 64
      = b2 - 128 := by omega
  have e4 : ((b0 - 240) * 262144 + (b1 - 128) * 4096 + (b2 - 128) * 64 + (b3 - 128)) % 64
      = b3 - 128 := by omega
  rw [e1, e2, e3, e4]
  simp only [List.cons.injEq, and_true]
  exact ⟨by omega, by omega, by omega, by omega⟩

/-- A successful `utf8Step` consumed exactly the encoding of the produced
code point. -/
theorem utf8Step_encode (b0 : Nat) (bs : List Nat) (c : Nat) (rest : List Nat)
    (h : utf8Step b0 bs = some (c, rest)) : utf8EncodeChar c ++ rest = b0 :: bs := by
  unfold utf8Step at h
  by_cases h1 : b0 ≤ 127
  · rw [if_pos h1] at h
    simp only [Option.some.injEq, Prod.mk.injEq] at h
    obtain ⟨hc, hr⟩ := h
    subst hc; subst hr
    rw [utf8EncodeChar_one b0 h1]
    rfl
  · rw [if_neg h1] at h
    by_cases h2 : 194 ≤ b0 ∧ b0 ≤ 223
    · rw [if_pos h2] at h
      cases bs with
      | nil => exact absurd h (by simp)
      | cons b1 bs1 =>
        dsimp only at h
        by_cases h3 : 128 ≤ b1 ∧ b1 ≤ 191
        · rw [if_pos h3] at h
          simp only [Option.some.injEq, Prod.mk.injEq] at h
          obtain ⟨hc, hr⟩ := h
          subst hc; subst hr
          rw [utf8EncodeChar_two b0 b1 h2.1 h2.2 h3.1 h3.2]
          rfl
        · rw [if_neg h3] at h
          exact absurd h (by simp)
    · rw [if_neg h2] at h
      by_cases h4 : 224 ≤ b0 ∧ b0 ≤ 239
      · rw [if_pos h4] at h
        cases bs with
        | nil => exact absurd h (by simp)
        | cons b1 bs1 =>
          cases bs1 with
          | nil => exact absurd h (by simp)
          | cons b2 bs2 =>
            dsimp only at h
            by_cases h5 : (contLo b0 ≤ b1 ∧ b1 ≤ contHi b0) ∧ (128 ≤ b2 ∧ b2 ≤ 191)
            · rw [if_pos h5] at h
              simp only [Option.some.injEq, Prod.mk.injEq] at h
              obtain ⟨hc, hr⟩ := h
              subst hc; subst hr
              rw [utf8EncodeChar_three b0 b1 b2 h4.1 h4.2 h5.1.1 h5.1.2 h5.2.1 h5.2.2]
              rfl
            · rw [if_neg h5] at h
              exact absurd h (by simp)
      · rw [if_neg h4] at h
        by_cases h6 : 240 ≤ b0 ∧ b0 ≤ 244
        · rw [if_pos h6] at h
          cases bs with
          | nil => exact absurd h (by simp)
          | cons b1 bs1 =>
            cases bs1 with
            | nil => exact absurd h (by simp)
            | cons b2 bs2 =>
              cases bs2 with
              | nil => exact absurd h (by simp)
              | cons b3 bs3 =>
                dsimp only at h
                by_cases h7 : (contLo b0 ≤ b1 ∧ b1 ≤ contHi b0) ∧
                    (128 ≤ b2 ∧ b2 ≤ 191) ∧ (128 ≤ b3 ∧ b3 ≤ 191)
                · rw [if_pos h7] at h
                  simp only [Option.some.injEq, Prod.mk.injEq] at h
                  obtain ⟨hc, hr⟩ := h
                  subst hc; subst hr
                  rw [utf8EncodeChar_four b0 b1 b2 b3 h6.1 h6.2 h7.1.1 h7.1.2
                    h7.2.1.1 h7.2.1.2 h7.2.2.1 h7.2.2.2]
                  rfl
                · rw [if_neg h7] at h
                  exact absurd h (by simp)
        · rw [if_neg h6] at h
          exact absurd h (by simp)

/-- Round trip of the fuel-driven decoding loop. -/
theorem utf8Encode_decodeAux : ∀ (fuel : Nat) (bs : List Nat) (cps : List Nat),
    utf8DecodeAux fuel bs = some cps → utf8Encode cps = bs := by
  intro fuel
  induction fuel with
  | zero =>
    intro bs cps h
    cases bs with
    | nil =>
      rw [utf8DecodeAux] at h
      injection h with h
      subst h
      rfl
    | cons b0 bs => exact absurd h (by rw [utf8DecodeAux]; simp)
  | succ n ih =>
    intro bs cps h
    cases bs with
    | nil =>
      rw [utf8DecodeAux] at h
      injection h with h
      subst h
      rfl
    | cons b0 bs =>
      rw [utf8DecodeAux] at h
      cases hstep : utf8Step b0 bs with
      | none => rw [hstep] at h; exact absurd h (by simp)
      | some p =>
        obtain ⟨c, rest⟩ := p
        rw [hstep, Option.map_eq_some'] at h
        obtain ⟨t, ht, hc⟩ := h
        subst hc
        rw [utf8Encode, ih rest t ht, utf8Step_encode b0 bs c rest hstep]

/-- Round trip of the strict UTF-8 codec: re-encoding a successful decode
reproduces the input bytes exactly. -/
theorem utf8Encode_decode (bs : List Nat) (cps : List Nat)
    (h : utf8Decode bs = some cps) : utf8Encode cps = bs :=
  utf8Encode_decodeAux bs.length bs cps h

/-! ## Base64 codec

Model of `base64.b64encode` / `base64.b64decode` over byte lists
(`handler.py` lines 252, 274, 282). -/

theorem b64Sextet_b64Char : ∀ s < 64, b64Sextet (b64Char s) = s := by decide

theorem b64Char_ne_pad : ∀ s < 64, b64Char s ≠ 61 := by decide

/-- Round trip of the base64 codec on byte lists. -/
theorem b64decode_encode : ∀ (bs : List Nat), (∀ x ∈ bs, x < 256) →
    b64decode (b64encode bs) = bs := by
  intro bs
  induction bs using b64encode.induct with
  | case1 =>
    intro _
    rfl
  | case2 a =>
    intro hlt
    have ha : a < 256 := hlt a (by simp)
    rw [b64encode, b64decode]
    rw [if_pos rfl, if_pos rfl]
    rw [b64Sextet_b64Char (a / 4) (by omega), b64Sextet_b64Char (a % 4 * 16) (by omega)]
    simp only [List.cons.injEq, and_true]
    omega
  | case3 a b =>
    intro hlt
    have ha : a < 256 := hlt a (by simp)
    have hb : b < 256 := hlt b (by simp)
    rw [b64encode, b64decode]
    rw [if_pos rfl, if_neg (b64Char_ne_pad (b % 16 * 4) (by omega))]
    rw [b64Sextet_b64Char (a / 4) (by omega), b64Sextet_b64Char (a % 4 * 16 + b / 16) (by omega),
      b64Sextet_b64Char (b % 16 * 4) (by omega)]
    simp only [List.cons.injEq, and_true]
    omega
  | case4 a b c rest ih =>
    intro hlt
    have ha : a < 256 := hlt a (by simp)
    have hb : b < 256 := hlt b (by simp)
    have hc : c < 256 := hlt c (by simp)
    rw [b64encode, b64decode]
    rw [if_neg (b64Char_ne_pad (c % 64) (by omega))]
    rw [b64Sextet_b64Char (a / 4) (by omega), b64Sextet_b64Char (a % 4 * 16 + b / 16) (by omega),
      b64Sextet_b64Char (b % 16 * 4 + c / 64) (by omega), b64Sextet_b64Char (c % 64) (by omega)]
    rw [ih (fun x hx => hlt x (by simp [hx]))]
    simp only [List.cons.injEq, and_true]
    omega

/-- A nonempty byte list has a nonempty base64 encoding. -/
theorem b64encode_ne_nil (bs : List Nat) (h : bs ≠ []) : b64encode bs ≠ [] := by
  match bs with
  | [] => exact absurd rfl h
  | [a] => simp [b64encode]
  | [a, b] => simp [b64encode]
  | a :: b :: c :: rest => simp [b64encode]

/-! ## Query-string encoding

Model of `urllib.parse.urlencode` with its default `quote_plus` quoting
(`build_target_url`, `handler.py` line 235). Query parameters are an
association list of code-point strings. -/

theorem tryFindAppAux_eq_findSome? (imp : Str → ImportResult) :
    ∀ l : List Str, tryFindAppAux imp l = l.findSome? (probeCandidate imp) := by
  intro l
  induction l with
  | nil => rfl
  | cons p rest ih =>
    rw [tryFindAppAux, List.findSome?_cons]
    unfold probeCandidate
    cases imp (modAttr p).1 with
    | raises =>
      dsimp only
      exact ih
    | found attrs =>
      dsimp only
      cases attrs (modAttr p).2 with
      | some v => rfl
      | none =>
        dsimp only
        exact ih

/-! ## Asset provisioning

Models of `download_and_extract_model_from_s3` (`handler.py` lines 99-142)
and `ensure_models` (`scripts/ensure_models_on_efs.py` lines 38-61). The
filesystem and network are abstracted as an environment of observations;
the result records the outcome and how many network calls were made. -/

theorem commonStem_eq_iff_leadsWith : ∀ (a b : List Str),
    (a = commonStem a b) ↔ leadsWith a b = true := by
  intro a
  induction a with
  | nil =>
    intro b
    constructor
    · intro _
      cases b <;> rfl
    · intro _
      cases b <;> rfl
  | cons x xs ih =>
    intro b
    cases b with
    | nil =>
      have hc : commonStem (x :: xs) [] = [] := rfl
      have hl : leadsWith (x :: xs) [] = false := rfl
      rw [hc, hl]
      constructor
      · intro h
        exact absurd h (by simp)
      · intro h
        exact absurd h (by simp)
    | cons y ys =>
      have hc : commonStem (x :: xs) (y :: ys) =
          if x = y then x :: commonStem xs ys else [] := rfl
      have hl : leadsWith (x :: xs) (y :: ys) = (x == y && leadsWith xs ys) := rfl
      rw [hc, hl]
      by_cases hxy : x = y
      · subst hxy
        rw [if_pos rfl]
        simp only [List.cons.injEq, true_and, beq_self_eq_true, Bool.true_and]
        exact ih ys
      · rw [if_neg hxy]
        constructor
        · intro h
          exact absurd h (by simp)
        · intro h
          simp only [Bool.and_eq_true, beq_iff_eq] at h
          exact absurd h.1 hxy

/-- Safety of the guarded extraction: every path written by
`stream_extract_s3_to_dir` has the canonicalized target directory as a
leading run (the target is an ancestor of every written path). -/
theorem stream_extract_safe (cwd : List Str) (target : PyPath) (members : List Str) :
    ∀ w ∈ stream_extract_s3_to_dir cwd target members,
      leadsWith (absPath cwd target) w = true := by
  intro w hw
  unfold stream_extract_s3_to_dir at hw
  rw [List.mem_filterMap] at hw
  obtain ⟨nm, _, hnm⟩ := hw
  by_cases hg : absPath cwd target =
      commonStem (absPath cwd target) (absPath cwd (joinPath target (parsePath nm)))
  · rw [if_pos hg] at hnm
    injection hnm with hnm
    subst hnm
    exact (commonStem_eq_iff_leadsWith _ _).mp hg
  · rw [if_neg hg] at hnm
    exact absurd hnm (by simp)

/-! ## Server supervision state

Model of `ensure_server_running`'s launch section (`handler.py` lines
216-228) together with the launcher thread `start_main_in_thread` (lines
144-169). The launcher always finishes within the caller's 70-second wait
(its own port poll is bounded by 60 seconds), so one invocation is modelled
as a single transition: the launch outcome is an input. -/


/-! ## Claim theorems -/

/-- C1: the claim states that both extraction routines skip every entry
whose resolved destination is not a descendant of the target directory.
This evaluation shows the guard-less `tf.extractall` of
`download_and_extract_model_from_s3` writing the member `../evil` to
`/tmp/evil`, outside the target `/tmp/models`, while the guarded
`stream_extract_s3_to_dir` skips the same member. -/
theorem c1_extractall_escapes_target :
    extractall_to_dir [] (parsePath (strCodes "/tmp/models")) [strCodes "../evil"] =
      [[strCodes "tmp", strCodes "evil"]] ∧
    leadsWith (absPath [] (parsePath (strCodes "/tmp/models")))
      [strCodes "tmp", strCodes "evil"] = false ∧
    stream_extract_s3_to_dir [] (parsePath (strCodes "/tmp/models"))
      [strCodes "../evil"] = [] := by
  refine ⟨rfl, rfl, rfl⟩

/-- C2 counterexample: after a port-timeout launch failure the next
invocation launches the backend again (third conjunct: launch flag true),
and after an exception launch failure the next invocation returns success
instead of failing (last conjunct). -/
theorem c2_failed_state_not_terminal :
    ((ensure_server_running srvInit .portTimeout).2.1 = .errNotReady) ∧
    ((ensure_server_running srvInit .raises).2.1 = .errStartFailed) ∧
    ((ensure_server_running (ensure_server_running srvInit .portTimeout).1
        .portTimeout).2.2 = true) ∧
    ((ensure_server_running (ensure_server_running srvInit .raises).1 .ready).2 =
      (.ok, false)) := by
  refine ⟨rfl, rfl, rfl, rfl⟩

/-- C2 amended: a port-timeout failure leaves the state exactly at the
cold-start state, so the next invocation relaunches (succeeding or failing
with that relaunch); an exception failure sets the started event, so every
later invocation returns success immediately without launching. -/
theorem c2_failure_behaviour_amended :
    ((ensure_server_running srvInit .portTimeout).1 = srvInit) ∧
    ((ensure_server_running (ensure_server_running srvInit .portTimeout).1 .ready).2 =
      (.ok, true)) ∧
    ((ensure_server_running (ensure_server_running srvInit .portTimeout).1
        .portTimeout).2 = (.errNotReady, true)) ∧
    ((ensure_server_running (ensure_server_running srvInit .raises).1 .ready) =
      ((ensure_server_running srvInit .raises).1, .ok, false)) ∧
    ((ensure_server_running (ensure_server_running srvInit .raises).1 .portTimeout) =
      ((ensure_server_running srvInit .raises).1, .ok, false)) := by
  refine ⟨rfl, rfl, rfl, rfl, rfl⟩

/-- C3: for every byte body, encoding per the response-translation rule of
`forward_to_local` (UTF-8 text with flag false when it decodes, else base64
with flag true) and then decoding per the request-translation rule
`get_body_bytes` yields the original bytes exactly. -/
theorem c3_body_roundtrip (b : List Nat) (hb : ∀ x ∈ b, x < 256) :
    get_body_bytes (respToEvent (forward_to_local {}
      (fun _ => HttpOutcome.ok 200 [] b))) = b := by
  cases hdec : utf8Decode b with
  | some t =>
    unfold forward_to_local respToEvent get_body_bytes
    dsimp only
    rw [hdec]
    dsimp only [pyBodyRaw, Option.getD]
    have henc := utf8Encode_decode b t hdec
    by_cases ht : t = []
    · subst ht
      rw [if_pos rfl]
      exact henc
    · rw [if_neg ht]
      simp [henc]
  | none =>
    unfold forward_to_local respToEvent get_body_bytes
    dsimp only
    rw [hdec]
    dsimp only [pyBodyRaw, Option.getD]
    have hbne : b ≠ [] := by
      intro hb0
      subst hb0
      rw [show utf8Decode [] = some [] from rfl] at hdec
      exact absurd hdec (by simp)
    rw [if_neg (b64encode_ne_nil b hbne)]
    simp [b64decode_encode b hb]

/-- C3 witness: the round trip at the concrete non-UTF-8 body
`[0, 255, 254]`. -/
theorem c3_body_roundtrip_witness :
    (∀ x ∈ [0, 255, 254], x < 256) ∧
    get_body_bytes (respToEvent (forward_to_local {}
      (fun _ => HttpOutcome.ok 200 [] [0, 255, 254]))) = [0, 255, 254] :=
  ⟨by decide, c3_body_roundtrip [0, 255, 254] (by decide)⟩

/-- C4: one logical request presented in schema shape A and in schema
shape B translates to the same outbound HTTP request: same URL including
the query string, same method, same headers, same body bytes. -/
theorem c4_event_shapes_agree (p m : Str) (ps : List (Str × Str))
    (hdrs : List (Str × Str)) (bd : Option PyBody) (fl : Option Bool) :
    outboundRequest (shapeAEvent p m ps hdrs bd fl) =
      outboundRequest (shapeBEvent p m ps hdrs bd fl) := by
  have hurl : build_target_url (shapeAEvent p m ps hdrs bd fl) =
      build_target_url (shapeBEvent p m ps hdrs bd fl) := by
    unfold build_target_url shapeAEvent shapeBEvent
    dsimp only
    by_cases hps : ps = []
    · subst hps
      rfl
    · by_cases hu : urlencode ps = []
      · simp [hu, hps, pyOrStr]
      · simp [hu, hps, pyOrStr]
  unfold outboundRequest
  rw [hurl]
  rfl

/-- C5 counterexample: a target that exists and is non-empty, with the
bucket unset, makes both provisioning routines return failure (though with
zero network calls), because the bucket/key guard precedes the
already-populated check. -/
theorem c5_populated_without_config_fails :
    ensure_models emPopulatedNoBucket = { success := false, netCalls := 0 } ∧
    download_and_extract_model_from_s3 dlPopulatedNoBucket =
      { success := false, netCalls := 0 } :=
  ⟨rfl, rfl⟩

/-- C5 amended: provided the object-storage bucket and key are configured
(non-empty), a call on an already-existing non-empty target returns success
immediately and performs zero network calls, in both provisioning
routines. -/
theorem c5_idempotent_amended (d : DlEnv) (m : EMEnv)
    (hdb : d.bucket ≠ []) (hdk : d.key ≠ [])
    (hde : d.destExists = true) (hdn : d.destNonEmpty = true)
    (hmb : m.bucket ≠ []) (hmk : m.key ≠ [])
    (hme : m.mountExists = true) (hmn : m.mountNonEmpty = true) :
    download_and_extract_model_from_s3 d = { success := true, netCalls := 0 } ∧
    ensure_models m = { success := true, netCalls := 0 } := by
  constructor
  · unfold download_and_extract_model_from_s3
    rw [if_neg (fun h => h.elim hdb hdk), if_pos (by simp [hde, hdn])]
  · unfold ensure_models
    rw [if_neg (fun h => h.elim hmb hmk), if_pos (by simp [hme, hmn])]

/-- C5 witness: the amended idempotence at concrete environments whose
download and extraction would fail, showing they are never reached. -/
theorem c5_idempotent_amended_witness :
    download_and_extract_model_from_s3 dlPopulatedConfigured =
      { success := true, netCalls := 0 } ∧
    ensure_models emPopulatedConfigured = { success := true, netCalls := 0 } :=
  c5_idempotent_amended _ _ (by decide) (by decide) rfl rfl (by decide) (by decide)
    rfl rfl

/-- C6: a transport-level failure of the outbound call is caught and
converted into a synthetic response with status 502 and the descriptive
text `Upstream proxy error: <exception>`, not propagated: `forward_to_local`
totally returns a response on this branch. -/
theorem c6_transport_error_502 (ev : Event) (msg : Str) :
    forward_to_local ev (fun _ => HttpOutcome.transportError msg) =
      { statusCode := 502, headers := none, body := upstreamErrPrefix ++ msg,
        isBase64Encoded := none } :=
  rfl

/-- C7 counterexample: the synthetic transport-error response of
`forward_to_local` carries neither a `headers` key nor an
`isBase64Encoded` key, so not every branch returns all four fields. -/
theorem c7_transport_response_missing_fields :
    (forward_to_local {} (fun _ =>
      HttpOutcome.transportError (strCodes "connection refused"))).headers = none ∧
    (forward_to_local {} (fun _ =>
      HttpOutcome.transportError (strCodes "connection refused"))).isBase64Encoded =
      none :=
  ⟨rfl, rfl⟩

/-- C7 amended: the responses of the success branch and of the HTTPError
branch carry all four fields (`statusCode` and `body` are always present;
`headers` and `isBase64Encoded` are populated); the synthetic
transport-error response carries only `statusCode` and `body`. -/
theorem c7_response_shape_amended (ev : Event) (s : Nat) (hdrs : List (Str × Str))
    (b : List Nat) (msg : Str) :
    (forward_to_local ev (fun _ => HttpOutcome.ok s hdrs b)).headers.isSome = true ∧
    (forward_to_local ev (fun _ => HttpOutcome.ok s hdrs b)).isBase64Encoded.isSome =
      true ∧
    (forward_to_local ev (fun _ => HttpOutcome.httpError s hdrs b)).headers.isSome =
      true ∧
    (forward_to_local ev (fun _ =>
      HttpOutcome.httpError s hdrs b)).isBase64Encoded.isSome = true ∧
    (forward_to_local ev (fun _ => HttpOutcome.transportError msg)).headers = none ∧
    (forward_to_local ev (fun _ => HttpOutcome.transportError msg)).isBase64Encoded =
      none := by
  unfold forward_to_local
  dsimp only
  cases utf8Decode b <;> simp

/-- C8: `try_find_app` returns the attribute of the first candidate of
`COMMON_PATHS`, in order, whose module imports and exposes the named
attribute; failures (including raised imports) fall through to the next
candidate, and total failure yields `none` rather than an error. -/
theorem c8_try_find_app_first_match (imp : Str → ImportResult) :
    try_find_app imp = findFirstSpec imp :=
  tryFindAppAux_eq_findSome? imp COMMON_PATHS

/-- C9: the claim states that exactly one launch attempt occurs under
concurrent invocations. Under the interleaving in which both callers
evaluate the `server_thread is None or not server_thread.is_alive()` check
before either assigns, two launcher threads are started (first conjunct);
the serialized schedule launches once (second conjunct). -/
theorem c9_interleaved_double_launch :
    (raceRun [false, true, false, true, false, true]).1.launches = 2 ∧
    (raceRun [false, false, false, true, true, true]).1.launches = 1 :=
  ⟨rfl, rfl⟩

/-- C10: an HTTPError exchange is passed through: the response carries the
upstream's own status code and headers, with the body as UTF-8 text and
flag false when it decodes cleanly, else base64 with flag true — never the
synthetic 502 shape. -/
theorem c10_http_error_passthrough (ev : Event) (code : Nat)
    (hdrs : List (Str × Str)) (b : List Nat) :
    forward_to_local ev (fun _ => HttpOutcome.httpError code hdrs b) =
      match utf8Decode b with
      | some text => { statusCode := code, headers := some hdrs, body := text,
                       isBase64Encoded := some false }
      | none => { statusCode := code, headers := some hdrs, body := b64encode b,
                  isBase64Encoded := some true } := by
  unfold forward_to_local
  dsimp only
